import Mathlib

/-!
Verification of the Librarian request-lifecycle engine.

This file gives a shallow embedding, in Lean, of the core request-lifecycle
code of the Librarian gateway (error classification and retry, the session
configuration lease, the admission controller, the stream classifier, the
token-usage accounting, and the per-request orchestration of `main.py`),
and proves or refutes the behavioural properties stated about it.
-/

namespace Librarian

/-! ## String helpers

Python's `pat in s` substring test and `str.lower()` are modelled over the
character lists of Lean strings. -/

/-- `listStartsWith s pat` is true when `pat` is an initial segment of `s`. -/
def listStartsWith : List Char → List Char → Bool
  | _, [] => true
  | [], _ :: _ => false
  | a :: s, b :: p => a == b && listStartsWith s p

/-- `listHasSub s pat` is true when `pat` occurs contiguously inside `s`
(the semantics of Python's `pat in s`). -/
def listHasSub : List Char → List Char → Bool
  | [], pat => listStartsWith [] pat
  | s@(_ :: rest), pat => listStartsWith s pat || listHasSub rest pat

/-- Python's `pat in s` on strings. -/
def strHasSub (s pat : String) : Bool := listHasSub s.data pat.data

/-- Python's `s.lower()`. -/
def strLower (s : String) : String := ⟨s.data.map Char.toLower⟩

/-! ## Error handler (`src/librarian/error_handler.py`)

A Python exception is modelled by the attributes the error handler
inspects: its class (HTTPException / ApiError / other), its `str(...)`
rendering, and the optional `message` / `detail` / `body` attributes. -/

structure PyError where
  isHTTPException : Bool := false
  isApiError : Bool := false
  strRepr : String := ""
  messageAttr : Option String := none
  detailAttr : Option String := none
  bodyAttr : Option String := none
deriving DecidableEq, Repr

namespace ErrorType

def contextWindowFull : String := "context_window_full"
def apiError : String := "api_error"
def networkError : String := "network_error"
def validationError : String := "validation_error"
def serverError : String := "server_error"
def unknownError : String := "unknown_error"

end ErrorType

/-- The substring vocabulary of `ErrorHandler.is_context_window_full_error`. -/
def contextFullIndicators : List String :=
  [ "context window"
  , "context_window"
  , "context is full"
  , "token limit exceeded"
  , "maximum context length"
  , "context_length_exceeded"
  , "context_length"
  , "max_tokens"
  , "token count" ]

/-- The searched text: `str(error).lower()` plus the lowered `message`,
`detail` and `body` attributes when present. -/
def errorSearchText (e : PyError) : String :=
  let s0 := strLower e.strRepr
  let s1 := match e.messageAttr with
    | some m => s0 ++ " " ++ strLower m
    | none => s0
  let s2 := match e.detailAttr with
    | some d => s1 ++ " " ++ strLower d
    | none => s1
  match e.bodyAttr with
  | some b => s2 ++ " " ++ strLower b
  | none => s2

/-- `ErrorHandler.is_context_window_full_error`. -/
def is_context_window_full_error (e : PyError) : Bool :=
  contextFullIndicators.any (fun ind => strHasSub (errorSearchText e) ind)

/-- `ErrorHandler.classify_error`. -/
def classify_error (e : PyError) : String :=
  if e.isHTTPException then ErrorType.validationError
  else if e.isApiError then
    (if is_context_window_full_error e then ErrorType.contextWindowFull
     else ErrorType.apiError)
  else if is_context_window_full_error e then ErrorType.contextWindowFull
  else ErrorType.serverError

/-- `ErrorHandler.is_retryable_error`.  `attempt` is 0-indexed; the Python
`attempt >= max_retries - 1` test on ints agrees with the ℕ-truncated
subtraction here for every `max_retries` (for `max_retries ≤ 1` both sides
make the test true for every attempt). -/
def is_retryable_error (e : PyError) (attempt maxRetries : Nat)
    (retryOnContextFull : Bool) : Bool :=
  if attempt ≥ maxRetries - 1 then false
  else if e.isHTTPException then false
  else if is_context_window_full_error e then retryOnContextFull
  else false

/-- The value returned by `ErrorHandler.format_error_response`: an
`HTTPException` for buffered delivery, or an SSE error chunk (followed by a
`[DONE]` frame) for streaming delivery.  JSON serialisation is abstracted;
the message and type strings are kept. -/
inductive FormattedError where
  | http (statusCode : Nat) (message : String) (errType : String)
  | streamChunk (message : String) (errType : String)
deriving DecidableEq, Repr

/-- `ErrorHandler.format_error_response`. -/
def format_error_response (e : PyError) (errorType : String)
    (isStreaming : Bool) : FormattedError :=
  let message :=
    if errorType = ErrorType.contextWindowFull then
      "Context window full: " ++ e.strRepr
    else if errorType = ErrorType.apiError then
      "Letta API error: " ++ e.strRepr
    else
      "Server error: " ++ e.strRepr
  if isStreaming then FormattedError.streamChunk message "server_error"
  else FormattedError.http 500 message "server_error"

structure ErrorHandlingResult where
  shouldRetry : Bool
  errorResponse : Option FormattedError := none
  errorType : Option String := none
deriving DecidableEq, Repr

/-- `ErrorHandler.handle_error`.  The optional compaction callback is
modelled by its observed outcome: `none` when no callback was supplied,
`some (Except.error m)` when the callback threw, `some (Except.ok b)` when
it returned `b`. -/
def handle_error (e : PyError) (attempt maxRetries : Nat)
    (retryOnContextFull : Bool) (isStreaming : Bool)
    (summarizeOutcome : Option (Except String Bool)) : ErrorHandlingResult :=
  let errorType := classify_error e
  let shouldRetry := is_retryable_error e attempt maxRetries retryOnContextFull
  if shouldRetry ∧ errorType = ErrorType.contextWindowFull ∧ summarizeOutcome.isSome then
    match summarizeOutcome with
    | some (Except.ok true) =>
        { shouldRetry := true, errorType := some errorType }
    | some (Except.ok false) =>
        { shouldRetry := false
        , errorResponse := some (format_error_response e errorType isStreaming)
        , errorType := some errorType }
    | some (Except.error _) =>
        { shouldRetry := false
        , errorResponse := some (format_error_response e errorType isStreaming)
        , errorType := some errorType }
    | none =>
        { shouldRetry := false
        , errorResponse := some (format_error_response e errorType isStreaming)
        , errorType := some errorType }
  else if shouldRetry then
    { shouldRetry := true, errorType := some errorType }
  else
    { shouldRetry := false
    , errorResponse := some (format_error_response e errorType isStreaming)
    , errorType := some errorType }

/-- A sample upstream failure whose text matches the context-window
vocabulary. -/
def cwfSampleError : PyError := { strRepr := "context window full" }

/-- A sample validation failure (FastAPI `HTTPException`) whose text also
matches the context-window vocabulary. -/
def httpSampleError : PyError :=
  { isHTTPException := true, strRepr := "context window full" }

/-- C4: `is_retryable_error` returns false once `attempt ≥ maxRetries - 1`;
returns false for every `HTTPException` (validation error) regardless of its
message; on an error matching the context-window vocabulary (and not caught
by the two earlier rules) returns exactly `retryOnContextFull`; and returns
false for every other error.  The four rules apply in this order, as in the
source. -/
theorem is_retryable_error_spec (e : PyError) (a m : Nat) (allow : Bool) :
    (a ≥ m - 1 → is_retryable_error e a m allow = false) ∧
    (e.isHTTPException = true → is_retryable_error e a m allow = false) ∧
    (a < m - 1 → e.isHTTPException = false → is_context_window_full_error e = true →
      is_retryable_error e a m allow = allow) ∧
    (a < m - 1 → e.isHTTPException = false → is_context_window_full_error e = false →
      is_retryable_error e a m allow = false) := by
  refine ⟨fun h => ?_, fun h => ?_, fun h1 h2 h3 => ?_, fun h1 h2 h3 => ?_⟩
  · simp [is_retryable_error, h]
  · simp only [is_retryable_error, h]
    split <;> simp
  · simp [is_retryable_error, Nat.not_le.mpr h1, h2, h3]
  · simp [is_retryable_error, Nat.not_le.mpr h1, h2, h3]

/-- Witness for C4 at concrete inputs: a context-window error at attempt 0
of 2 is retried exactly when recovery is allowed, and an `HTTPException`
with the same message is never retried. -/
theorem is_retryable_error_spec_witness :
    is_retryable_error cwfSampleError 0 2 true = true ∧
    is_retryable_error httpSampleError 0 2 true = false ∧
    is_retryable_error cwfSampleError 1 2 true = false :=
  ⟨(is_retryable_error_spec cwfSampleError 0 2 true).2.2.1 (by decide) (by rfl)
      (by decide),
   (is_retryable_error_spec httpSampleError 0 2 true).2.1 (by rfl),
   (is_retryable_error_spec cwfSampleError 1 2 true).1 (by decide)⟩

/-- C5: when an otherwise-retryable context-window-full error reaches
`handle_error` and the compaction callback either throws or returns
failure, the result is non-retryable and its formatted error response is
rendered from the original error (by `format_error_response` applied to
the error that was passed in, not to the compaction failure). -/
theorem handle_error_compaction_failure (e : PyError) (a m : Nat)
    (allow : Bool) (isStreaming : Bool) (out : Except String Bool)
    (hretry : is_retryable_error e a m allow = true)
    (hcwf : classify_error e = ErrorType.contextWindowFull)
    (hfail : out = Except.ok false ∨ ∃ msg, out = Except.error msg) :
    handle_error e a m allow isStreaming (some out) =
      { shouldRetry := false
      , errorResponse :=
          some (format_error_response e ErrorType.contextWindowFull isStreaming)
      , errorType := some ErrorType.contextWindowFull } := by
  rcases hfail with h | ⟨msg, h⟩ <;>
    simp [handle_error, hretry, hcwf, h]

/-- Witness for C5 at concrete inputs: compaction returning failure, and
compaction throwing, both surface the original context-window error. -/
theorem handle_error_compaction_failure_witness :
    handle_error cwfSampleError 0 2 true false (some (Except.ok false)) =
      { shouldRetry := false
      , errorResponse :=
          some (format_error_response cwfSampleError ErrorType.contextWindowFull false)
      , errorType := some ErrorType.contextWindowFull } ∧
    handle_error cwfSampleError 0 2 true true (some (Except.error "summarize blew up")) =
      { shouldRetry := false
      , errorResponse :=
          some (format_error_response cwfSampleError ErrorType.contextWindowFull true)
      , errorType := some ErrorType.contextWindowFull } :=
  ⟨handle_error_compaction_failure cwfSampleError 0 2 true false (Except.ok false)
      (by decide) (by decide) (Or.inl rfl),
   handle_error_compaction_failure cwfSampleError 0 2 true true
      (Except.error "summarize blew up") (by decide) (by decide)
      (Or.inr ⟨"summarize blew up", rfl⟩)⟩

/-! ## Session configuration lease
(`src/librarian/agent_config_manager.py` and the `configure_agent_for_request`
/ `restore_agent_config` pair in `main.py`)

The agent's generation configuration (`llm_config`) is modelled by its two
overridable fields plus an opaque remainder that `model_dump` round-trips.
The Letta RPCs are modelled by an oracle saying which calls throw. -/

structure LlmCfg where
  temperature : Rat
  maxTokens : Nat
  rest : String
deriving DecidableEq, Repr

/-- The `config_dict` update in `__aenter__` / `configure_agent_for_request`:
each override replaces its field when present. -/
def applyOverrides (cfg : LlmCfg) (t? : Option Rat) (m? : Option Nat) : LlmCfg :=
  { cfg with temperature := t?.getD cfg.temperature
           , maxTokens := m?.getD cfg.maxTokens }

/-- The world visible to one lease: the agent's server-side `llm_config`
(`none` when the agent has no `llm_config`), whether this agent's lock from
the shared lock table is held, and RPC call counters. -/
structure LeaseWorld where
  cfg : Option LlmCfg
  lockHeld : Bool := false
  retrieveCalls : Nat := 0
  modifyCalls : Nat := 0
  lockAcquires : Nat := 0
deriving DecidableEq, Repr

/-- Which external calls fail during the lease's lifetime. -/
structure LeaseOracle where
  retrieveThrows : Bool := false
  modifyThrows : Bool := false
  restoreThrows : Bool := false
  workThrows : Bool := false
deriving DecidableEq, Repr

/-- `AgentConfigContext.__aenter__`: no-op when both overrides are absent;
otherwise acquire the per-agent lock, read the configuration (on a read
failure or a missing `llm_config`, release the lock and take no lease),
snapshot it, and push the overridden configuration (on a push failure,
release the lock and take no lease).  Returns the updated world and
`self.original_config`. -/
def leaseEnter (w : LeaseWorld) (t? : Option Rat) (m? : Option Nat)
    (o : LeaseOracle) : LeaseWorld × Option LlmCfg :=
  if t? = none ∧ m? = none then (w, none)
  else
    let w1 := { w with lockHeld := true, lockAcquires := w.lockAcquires + 1 }
    let w2 := { w1 with retrieveCalls := w1.retrieveCalls + 1 }
    if o.retrieveThrows then ({ w2 with lockHeld := false }, none)
    else
      match w2.cfg with
      | none => ({ w2 with lockHeld := false }, none)
      | some current =>
        let w3 := { w2 with modifyCalls := w2.modifyCalls + 1 }
        if o.modifyThrows then ({ w3 with lockHeld := false }, none)
        else ({ w3 with cfg := some (applyOverrides current t? m?) }, some current)

/-- `AgentConfigContext.__aexit__`: nothing to restore when no lease was
taken; otherwise push the snapshot back (a push failure is logged and
swallowed) and release the lock unconditionally. -/
def leaseExit (w : LeaseWorld) (original : Option LlmCfg)
    (o : LeaseOracle) : LeaseWorld :=
  match original with
  | none => w
  | some orig =>
    if w.lockHeld then
      let w1 := { w with modifyCalls := w.modifyCalls + 1 }
      let w2 := if o.restoreThrows then w1 else { w1 with cfg := some orig }
      { w2 with lockHeld := false }
    else w

/-- One request processed under `AgentConfigManager.temporary_config`: enter,
run the caller's work (which may throw; `__aexit__` still runs), exit.
Returns the final world and whether the work's exception propagated. -/
def runLease (w : LeaseWorld) (t? : Option Rat) (m? : Option Nat)
    (o : LeaseOracle) : LeaseWorld × Bool :=
  let entered := leaseEnter w t? m? o
  (leaseExit entered.1 entered.2 o, o.workThrows)

/-- `configure_agent_for_request` in `main.py`: the lock-free variant used by
the request handlers.  Returns the original configuration when settings were
changed, `none` otherwise (including every failure path). -/
def configureAgentForRequest (w : LeaseWorld) (t? : Option Rat)
    (m? : Option Nat) (o : LeaseOracle) : LeaseWorld × Option LlmCfg :=
  if t? = none ∧ m? = none then (w, none)
  else
    let w1 := { w with retrieveCalls := w.retrieveCalls + 1 }
    if o.retrieveThrows then (w1, none)
    else
      match w1.cfg with
      | none => (w1, none)
      | some current =>
        let w2 := { w1 with modifyCalls := w1.modifyCalls + 1 }
        if o.modifyThrows then (w2, none)
        else ({ w2 with cfg := some (applyOverrides current t? m?) }, some current)

/-- `restore_agent_config` in `main.py`: one modify call; on success the
server configuration equals the snapshot again. -/
def restoreAgentConfig (w : LeaseWorld) (original : LlmCfg)
    (o : LeaseOracle) : LeaseWorld × Bool :=
  let w1 := { w with modifyCalls := w.modifyCalls + 1 }
  if o.restoreThrows then (w1, false) else ({ w1 with cfg := some original }, true)

/-- The original configuration of the spec's lease-restoration scenario. -/
def scenarioCfg : LlmCfg := { temperature := 7/10, maxTokens := 1000, rest := "" }

/-- C2: for a request that overrides generation parameters, once its
processing completes — whether the work returned or threw — the session
configuration reads back equal to the pre-request snapshot whenever the
restore call succeeds, and the per-session lock is released even when the
restore call itself fails.  The concrete conjuncts run the spec's scenario
(original `temperature 0.7 / max_tokens 1000`, override `temperature 0.9`)
with the work returning and with the work throwing. -/
theorem lease_restoration (w : LeaseWorld) (t? : Option Rat) (m? : Option Nat)
    (o : LeaseOracle) (hlock : w.lockHeld = false) :
    ((runLease w t? m? o).1.lockHeld = false ∧
      (o.restoreThrows = false → (runLease w t? m? o).1.cfg = w.cfg)) ∧
    (runLease { cfg := some scenarioCfg } (some (9/10)) none
        { workThrows := false }).1.cfg = some scenarioCfg ∧
    (runLease { cfg := some scenarioCfg } (some (9/10)) none
        { workThrows := true }).1.cfg = some scenarioCfg := by
  refine ⟨⟨?_, ?_⟩, rfl, rfl⟩
  · by_cases hno : t? = none ∧ m? = none
    · simp [runLease, leaseEnter, leaseExit, hno, hlock]
    · rcases hcfg : w.cfg with _ | current <;>
        rcases hret : o.retrieveThrows with _ | _ <;>
        rcases hmod : o.modifyThrows with _ | _ <;>
        simp [runLease, leaseEnter, leaseExit, hno, hcfg, hret, hmod]
  · intro hres
    by_cases hno : t? = none ∧ m? = none
    · simp [runLease, leaseEnter, leaseExit, hno]
    · rcases hcfg : w.cfg with _ | current <;>
        rcases hret : o.retrieveThrows with _ | _ <;>
        rcases hmod : o.modifyThrows with _ | _ <;>
        simp [runLease, leaseEnter, leaseExit, hno, hcfg, hret, hmod, hres]

/-- Witness for C2: the scenario run, with the work throwing and the restore
succeeding, ends with the lock free and the configuration restored. -/
theorem lease_restoration_witness :
    ((runLease { cfg := some scenarioCfg } (some (9/10)) none
        { workThrows := true }).1.lockHeld = false ∧
      ((LeaseOracle.mk false false false true).restoreThrows = false →
        (runLease { cfg := some scenarioCfg } (some (9/10)) none
          { workThrows := true }).1.cfg =
          (LeaseWorld.mk (some scenarioCfg) false 0 0 0).cfg)) ∧
    (runLease { cfg := some scenarioCfg } (some (9/10)) none
        { workThrows := false }).1.cfg = some scenarioCfg ∧
    (runLease { cfg := some scenarioCfg } (some (9/10)) none
        { workThrows := true }).1.cfg = some scenarioCfg :=
  lease_restoration { cfg := some scenarioCfg } (some (9/10)) none
    { workThrows := true } (by rfl)

/-- C7: acquiring and releasing a configuration lease with no overrides (both
`temperature` and `max_tokens` absent) performs zero session-configuration
reads or writes and takes no per-session lock — the world is returned
untouched — and the `main.py` fast path likewise returns immediately with no
RPC calls. -/
theorem lease_noop_when_no_overrides (w : LeaseWorld) (o : LeaseOracle) :
    runLease w none none o = (w, o.workThrows) ∧
    configureAgentForRequest w none none o = (w, none) := by
  constructor
  · simp [runLease, leaseEnter, leaseExit]
  · simp [configureAgentForRequest]

/-! ## Decimal rendering

`queue_request` builds ids with Python's f-string decimal rendering of
nonnegative integers; it is modelled by a fuel-based digit expansion that
the kernel can evaluate. -/

/-- The character of one decimal digit (values ≥ 9 all render as `'9'`;
only arguments below 10 occur). -/
def decDigitChar (d : Nat) : Char :=
  match d with
  | 0 => '0' | 1 => '1' | 2 => '2' | 3 => '3' | 4 => '4'
  | 5 => '5' | 6 => '6' | 7 => '7' | 8 => '8' | _ => '9'

/-- Numeric value of a decimal digit character. -/
def decDigitVal (c : Char) : Nat := c.toNat - 48

/-- Least-significant-first decimal digits of `n`, with explicit fuel
(`fuel ≥ n` suffices). -/
def lsdAux : Nat → Nat → List Char
  | _, 0 => []
  | 0, _ => []
  | fuel + 1, n + 1 => decDigitChar ((n + 1) % 10) :: lsdAux fuel ((n + 1) / 10)

/-- Least-significant-first decimal digits of `n`. -/
def lsdDigits (n : Nat) : List Char := lsdAux n n

/-- Value of a least-significant-first digit list. -/
def lsdVal : List Char → Nat
  | [] => 0
  | c :: cs => decDigitVal c + 10 * lsdVal cs

/-- Python's `str(n)` for a nonnegative integer. -/
def natDecimalRepr (n : Nat) : String :=
  if n = 0 then "0" else ⟨(lsdDigits n).reverse⟩

theorem decDigitVal_decDigitChar (d : Nat) (h : d < 10) :
    decDigitVal (decDigitChar d) = d := by
  interval_cases d <;> rfl

theorem decDigitChar_ne_underscore (d : Nat) : decDigitChar d ≠ '_' := by
  unfold decDigitChar
  split <;> decide

theorem lsdAux_eq_of_le : ∀ (n f₁ f₂ : Nat), n ≤ f₁ → n ≤ f₂ →
    lsdAux f₁ n = lsdAux f₂ n := by
  intro n
  induction n using Nat.strong_induction_on with
  | _ n ih =>
    intro f₁ f₂ h₁ h₂
    match n, f₁, f₂ with
    | 0, f₁, f₂ => cases f₁ <;> cases f₂ <;> rfl
    | m + 1, f₁ + 1, f₂ + 1 =>
      simp only [lsdAux]
      refine congrArg _ (ih ((m + 1) / 10) (Nat.div_lt_self (Nat.succ_pos m) (by omega)) _ _ ?_ ?_) <;>
        omega

theorem lsdDigits_succ (m : Nat) :
    lsdDigits (m + 1) = decDigitChar ((m + 1) % 10) :: lsdDigits ((m + 1) / 10) := by
  show lsdAux (m + 1) (m + 1) = _
  simp only [lsdAux]
  refine congrArg _ (lsdAux_eq_of_le ((m + 1) / 10) m ((m + 1) / 10) ?_ le_rfl)
  have := Nat.div_lt_self (Nat.succ_pos m) (show 1 < 10 by omega)
  omega

theorem lsdVal_lsdDigits (n : Nat) : lsdVal (lsdDigits n) = n := by
  induction n using Nat.strong_induction_on with
  | _ n ih =>
    match n with
    | 0 => rfl
    | m + 1 =>
      rw [lsdDigits_succ]
      have hdiv : (m + 1) / 10 < m + 1 := Nat.div_lt_self (Nat.succ_pos m) (by omega)
      simp only [lsdVal, ih _ hdiv, decDigitVal_decDigitChar _ (Nat.mod_lt _ (by omega))]
      omega

theorem lsdDigits_injective : Function.Injective lsdDigits := by
  intro a b h
  have := lsdVal_lsdDigits a
  rw [h, lsdVal_lsdDigits] at this
  omega

theorem underscore_not_mem_lsdDigits (n : Nat) : '_' ∉ lsdDigits n := by
  induction n using Nat.strong_induction_on with
  | _ n ih =>
    match n with
    | 0 => simp [lsdDigits, lsdAux]
    | m + 1 =>
      rw [lsdDigits_succ]
      have hdiv : (m + 1) / 10 < m + 1 := Nat.div_lt_self (Nat.succ_pos m) (by omega)
      simp only [List.mem_cons, not_or]
      exact ⟨fun h => decDigitChar_ne_underscore _ h.symm, ih _ hdiv⟩

theorem underscore_not_mem_repr (n : Nat) : '_' ∉ (natDecimalRepr n).data := by
  unfold natDecimalRepr
  split
  · decide
  · simpa using fun h => underscore_not_mem_lsdDigits n (List.mem_reverse.mp h)

theorem natDecimalRepr_injective : Function.Injective natDecimalRepr := by
  intro a b h
  unfold natDecimalRepr at h
  split at h <;> split at h
  · omega
  · exfalso
    rename_i ha hb
    have hdata : ("0" : String).data = ((lsdDigits b).reverse : List Char) :=
      congrArg String.data h
    have hb' : lsdDigits b = ['0'] := by
      have := congrArg List.reverse hdata
      simpa using this.symm
    have := lsdVal_lsdDigits b
    rw [hb'] at this
    simp [lsdVal, decDigitVal] at this
    omega
  · exfalso
    rename_i ha hb
    have hdata : ((lsdDigits a).reverse : List Char) = ("0" : String).data :=
      congrArg String.data h
    have ha' : lsdDigits a = ['0'] := by
      have := congrArg List.reverse hdata
      simpa using this
    have := lsdVal_lsdDigits a
    rw [ha'] at this
    simp [lsdVal, decDigitVal] at this
    omega
  · have hdata := congrArg String.data h
    simp only [String.data] at hdata
    exact lsdDigits_injective (List.reverse_injective hdata)

/-- Splitting a character list at its first `'_'`: the parts before it are
determined when neither contains `'_'`. -/
theorem split_at_underscore : ∀ (x x' y y' : List Char),
    x ++ '_' :: y = x' ++ '_' :: y' → '_' ∉ x → '_' ∉ x' → x = x' ∧ y = y' := by
  intro x
  induction x with
  | nil =>
    intro x' y y' h hx hx'
    cases x' with
    | nil => simpa using h
    | cons c cs =>
      simp only [List.nil_append, List.cons_append, List.cons.injEq] at h
      exact absurd (h.1 ▸ List.mem_cons_self c cs) (h.1 ▸ hx')
  | cons c cs ih =>
    intro x' y y' h hx hx'
    cases x' with
    | nil =>
      simp only [List.cons_append, List.nil_append, List.cons.injEq] at h
      exact absurd (h.1 ▸ List.mem_cons_self c cs) (by simp_all)
    | cons c' cs' =>
      simp only [List.cons_append, List.cons.injEq] at h
      obtain ⟨rfl, h2⟩ := h
      have := ih cs' y y' h2 (fun hm => hx (List.mem_cons_of_mem _ hm))
        (fun hm => hx' (List.mem_cons_of_mem _ hm))
      exact ⟨by rw [this.1], this.2⟩

/-! ## Admission controller (`src/librarian/load_manager.py`) -/

inductive RequestStatus where
  | pending | processing | completed | failed
deriving DecidableEq, Repr

/-- A queue entry (`RequestItem`); the caller-supplied message payload is
opaque to this layer and omitted. -/
structure RequestItem where
  requestId : String
  agentId : String
  userId : Option String := none
  timestamp : Nat
  status : RequestStatus := RequestStatus.pending
deriving DecidableEq, Repr

/-- The load manager's mutable state: the semaphore's remaining permits, the
pending FIFO queue and the active set. -/
structure LMState where
  sem : Nat
  queue : List RequestItem
  active : List RequestItem
deriving DecidableEq, Repr

/-- Fresh load manager: `processing_semaphore = Semaphore(max_concurrent)`,
empty queue and active set. -/
def LMState.init (maxC : Nat) : LMState := ⟨maxC, [], []⟩

/-- `LoadManager.queue_request` at wall-clock millisecond `nowMs`: the id is
`f"req_\x7bint(time.time() * 1000)\x7d_\x7blen(self.request_queue)\x7d"` and
the new entry is appended to the pending queue. -/
def queueRequest (nowMs : Nat) (agentId : String) (userId : Option String)
    (s : LMState) : String × LMState :=
  let rid := "req_" ++ natDecimalRepr nowMs ++ "_" ++ natDecimalRepr s.queue.length
  (rid, { s with queue :=
    s.queue ++ [{ requestId := rid, agentId := agentId, userId := userId
                , timestamp := nowMs }] })

/-- One interleaving step of the load manager, as exercised by
`process_request` / `process_with_queue` and the streaming queue handler:
enqueueing a request, admitting a pending request when the semaphore has a
free permit (decrement, move to the active set, mark `PROCESSING`), and
finishing an active request (remove from the active set, release the
permit).  Admission blocks exactly while the permit count is zero. -/
inductive LMStep : Nat → LMState → LMState → Prop
  | enqueue (maxC : Nat) (s : LMState) (now : Nat) (agent : String)
      (user : Option String) :
      LMStep maxC s (queueRequest now agent user s).2
  | acquire (maxC : Nat) (s : LMState) (item : RequestItem)
      (hsem : 0 < s.sem) (hmem : item ∈ s.queue) :
      LMStep maxC s
        ⟨s.sem - 1, s.queue.erase item,
          { item with status := RequestStatus.processing } :: s.active⟩
  | finish (maxC : Nat) (s : LMState) (item : RequestItem)
      (hmem : item ∈ s.active) :
      LMStep maxC s ⟨s.sem + 1, s.queue, s.active.erase item⟩

/-- States reachable from a fresh load manager with budget `maxC`. -/
inductive LMReachable (maxC : Nat) : LMState → Prop
  | init : LMReachable maxC (LMState.init maxC)
  | step {s s' : LMState} : LMReachable maxC s → LMStep maxC s s' →
      LMReachable maxC s'

theorem lm_sem_invariant {maxC : Nat} {s : LMState} (h : LMReachable maxC s) :
    s.sem + s.active.length = maxC := by
  induction h with
  | init => simp [LMState.init]
  | @step s s' hreach hstep ih =>
    cases hstep with
    | enqueue now agent user => simpa [queueRequest] using ih
    | acquire item hsem hmem =>
      simp only [List.length_cons]
      omega
    | finish item hmem =>
      have := List.length_erase_of_mem hmem
      have hpos : 0 < s.active.length := List.length_pos.mpr
        (List.ne_nil_of_mem hmem)
      simp only [this]
      omega

/-- C6: in every reachable load-manager state the number of requests in
processing state never exceeds `maxConcurrent`; moreover the semaphore has a
free permit — i.e. a pending request can be admitted without waiting —
exactly when fewer than `maxConcurrent` requests are processing.  Hence any
N ≤ `maxConcurrent` waiting requests can all be admitted immediately, and
with `maxConcurrent` active every further request is admitted only once an
earlier one finishes. -/
theorem lm_admission_bound (maxC : Nat) (s : LMState)
    (h : LMReachable maxC s) :
    s.active.length ≤ maxC ∧ (0 < s.sem ↔ s.active.length < maxC) := by
  have hinv := lm_sem_invariant h
  omega

/-- Witness for C6: the fresh manager with budget 3 is reachable and
satisfies the bound. -/
theorem lm_admission_bound_witness :
    (LMState.init 3).active.length ≤ 3 ∧
      (0 < (LMState.init 3).sem ↔ (LMState.init 3).active.length < 3) :=
  lm_admission_bound 3 (LMState.init 3) LMReachable.init

theorem stringDataInj {s t : String} (h : s.data = t.data) : s = t := by
  cases s
  cases t
  exact congrArg String.mk h

/-- The id built by `queue_request` determines, and is determined by, the
enqueue's millisecond timestamp and the pending-queue length at enqueue
time. -/
theorem reqIdStr_inj (t l t' l' : Nat) :
    ("req_" ++ natDecimalRepr t ++ "_" ++ natDecimalRepr l) =
      ("req_" ++ natDecimalRepr t' ++ "_" ++ natDecimalRepr l') ↔
    (t = t' ∧ l = l') := by
  constructor
  · intro h
    have hdata := congrArg String.data h
    simp only [String.data_append] at hdata
    have hdata' :
        ("req_" : String).data ++
            ((natDecimalRepr t).data ++ '_' :: (natDecimalRepr l).data) =
          ("req_" : String).data ++
            ((natDecimalRepr t').data ++ '_' :: (natDecimalRepr l').data) := by
      simpa [List.append_assoc] using hdata
    have hmid := List.append_cancel_left hdata'
    have hsplit := split_at_underscore _ _ _ _ hmid
      (underscore_not_mem_repr t) (underscore_not_mem_repr t')
    exact ⟨natDecimalRepr_injective (stringDataInj hsplit.1),
      natDecimalRepr_injective (stringDataInj hsplit.2)⟩
  · rintro ⟨rfl, rfl⟩
    rfl

/-- C9 (amended): two `queue_request` calls receive the same id exactly when
they happen in the same wall-clock millisecond with pending queues of equal
length; ids are therefore unique only across enqueues differing in timestamp
or queue length, not per enqueue. -/
theorem queue_request_id_collision_iff (now now' : Nat) (ag ag' : String)
    (u u' : Option String) (s s' : LMState) :
    (queueRequest now ag u s).1 = (queueRequest now' ag' u' s').1 ↔
      (now = now' ∧ s.queue.length = s'.queue.length) := by
  simpa [queueRequest] using
    reqIdStr_inj now s.queue.length now' s'.queue.length

/-- The manager state after the first enqueue of the counterexample trace. -/
def c9AfterFirst : LMState := (queueRequest 1000 "agent-a" none (LMState.init 10)).2

/-- The entry created by that first enqueue. -/
def c9Item : RequestItem :=
  { requestId := "req_1000_0", agentId := "agent-a", userId := none
  , timestamp := 1000 }

/-- The manager state after that entry has been admitted for processing
(semaphore decremented, entry moved from the pending queue to the active
set). -/
def c9AfterAdmit : LMState :=
  ⟨c9AfterFirst.sem - 1, c9AfterFirst.queue.erase c9Item,
    { c9Item with status := RequestStatus.processing } :: c9AfterFirst.active⟩

/-- C9 (counterexample): in a reachable trace — enqueue at millisecond 1000,
admit that entry, enqueue again at millisecond 1000 — the two distinct
enqueue operations return the same id, so ids are not unique per enqueue
over the process lifetime. -/
theorem queue_request_id_reuse :
    (queueRequest 1000 "agent-a" none (LMState.init 10)).1 =
      (queueRequest 1000 "agent-a" none c9AfterAdmit).1 ∧
    LMReachable 10 c9AfterAdmit := by
  refine ⟨by decide, ?_⟩
  exact LMReachable.step
    (LMReachable.step LMReachable.init
      (LMStep.enqueue 10 (LMState.init 10) 1000 "agent-a" none))
    (LMStep.acquire 10 c9AfterFirst c9Item (by decide) (by decide))

/-! ## Stream classifier
(`src/librarian/stream_processor.py`, `src/librarian/response_formatter.py`)

An upstream stream element is modelled by the attributes the classifier
inspects.  `content` distinguishes an absent attribute (`none`) from an
attribute whose value is Python `None` (`some none`).  A content part is
either a text-bearing part (`TextContent` / a dict with a `"text"` entry)
or some other object, carried with its `str(...)` rendering. -/

inductive PyPart where
  | textPart (t : String)
  | otherPart (asStr : String)
deriving DecidableEq, Repr

inductive PyContent where
  | str (s : String)
  | parts (l : List PyPart)
deriving DecidableEq, Repr

structure Chunk where
  messageType : Option String := none
  hasToolCall : Bool := false
  content : Option (Option PyContent) := none
  reasoning : Option String := none
  stopReason : Option String := none
  errorAttr : Option String := none
  messageContent : Option String := none
  textAttr : Option String := none
deriving DecidableEq, Repr

/-- One part's contribution in `ResponseFormatter._extract_content`: a
text-bearing part contributes its text, any other part its `str(...)`
rendering. -/
def partExtract : PyPart → String
  | PyPart.textPart t => t
  | PyPart.otherPart s => s

/-- One part's contribution in the `assistant_message` branch of
`StreamProcessor.extract_chunk_content_detailed` and of the `main.py`
handlers (`item.text for item in content if hasattr(item, 'text')`): parts
without a `text` attribute are dropped. -/
def partText : PyPart → String
  | PyPart.textPart t => t
  | PyPart.otherPart _ => ""

/-- `ResponseFormatter._extract_content`: error and stop events yield
nothing; a `reasoning` entry is noted but not removed (`pass`); a string
content is returned as is, a non-empty part list is concatenated in order;
otherwise the `message.content` and `text` entries are tried; else empty. -/
def extractContent (c : Chunk) : String :=
  if c.messageType = some "error" ∨ c.messageType = some "stop_reason" then ""
  else
    match c.content with
    | some (some (PyContent.parts l)) =>
        (l.map partExtract).foldl (· ++ ·) ""
    | some (some (PyContent.str s)) => s
    | some none => ""
    | none =>
        match c.messageContent with
        | some m => m
        | none =>
          match c.textAttr with
          | some t => t
          | none => ""

/-- `StreamProcessor.detect_event_type`: the `message_type` attribute when
it is a string, else `tool_call_message` when a `tool_call` attribute is
present, else `assistant_message` when a `content` attribute is present. -/
def detectEventType (c : Chunk) : Option String :=
  match c.messageType with
  | some t => some t
  | none =>
    if c.hasToolCall then some "tool_call_message"
    else if c.content.isSome then some "assistant_message"
    else none

/-- `StreamProcessor.extract_chunk_content_detailed`: for an
`assistant_message`, join the texts of the text-bearing parts (a string
content passes through, an absent or `None` content yields empty);
otherwise fall back to the standard extraction. -/
def extractChunkContentDetailed (c : Chunk) : String :=
  if detectEventType c = some "assistant_message" then
    match c.content with
    | some (some (PyContent.parts l)) => (l.map partText).foldl (· ++ ·) ""
    | some (some (PyContent.str s)) => s
    | some none => ""
    | none => ""
  else extractContent c

structure ProcResult where
  content : String
  chunkCount : Nat
deriving DecidableEq, Repr

/-- The loop body of `StreamProcessor.process_chunks`.  `onError` is the
`on_error` callback: `true` means "should retry", which breaks the loop;
`false` continues.  A `stop_reason` event that is not an error invokes
`on_stop` and breaks.  Appending an empty extraction equals the source's
`if content: full_content += content` guard. -/
def processChunksGo (onError : String → Bool) (acc : String) (cnt : Nat) :
    List Chunk → ProcResult
  | [] => ⟨acc, cnt⟩
  | c :: rest =>
    let et := detectEventType c
    if et = some "error" then
      if onError (c.errorAttr.getD "Unknown error") then ⟨acc, cnt + 1⟩
      else processChunksGo onError acc (cnt + 1) rest
    else if et = some "stop_reason" then
      if c.stopReason = some "error" then
        if onError (c.errorAttr.getD "Unknown error") then ⟨acc, cnt + 1⟩
        else processChunksGo onError acc (cnt + 1) rest
      else ⟨acc, cnt + 1⟩
    else if et = some "assistant_message" then
      processChunksGo onError (acc ++ extractChunkContentDetailed c) (cnt + 1) rest
    else if et = some "reasoning_message" then
      processChunksGo onError acc (cnt + 1) rest
    else
      processChunksGo onError (acc ++ extractContent c) (cnt + 1) rest

/-- `StreamProcessor.process_chunks` over a finite upstream event
sequence. -/
def processChunks (onError : String → Bool) (chunks : List Chunk) : ProcResult :=
  processChunksGo onError "" 0 chunks

theorem go_cons_reasoning (onError : String → Bool) (acc : String) (cnt : Nat)
    (c : Chunk) (rest : List Chunk)
    (h : detectEventType c = some "reasoning_message") :
    processChunksGo onError acc cnt (c :: rest) =
      processChunksGo onError acc (cnt + 1) rest := by
  simp [processChunksGo, h]

theorem go_cons_error (onError : String → Bool) (acc : String) (cnt : Nat)
    (c : Chunk) (rest : List Chunk)
    (h : detectEventType c = some "error") :
    processChunksGo onError acc cnt (c :: rest) =
      if onError (c.errorAttr.getD "Unknown error") then ⟨acc, cnt + 1⟩
      else processChunksGo onError acc (cnt + 1) rest := by
  simp [processChunksGo, h]

theorem go_cons_stop (onError : String → Bool) (acc : String) (cnt : Nat)
    (c : Chunk) (rest : List Chunk)
    (h : detectEventType c = some "stop_reason") :
    processChunksGo onError acc cnt (c :: rest) =
      if c.stopReason = some "error" then
        (if onError (c.errorAttr.getD "Unknown error") then ⟨acc, cnt + 1⟩
         else processChunksGo onError acc (cnt + 1) rest)
      else ⟨acc, cnt + 1⟩ := by
  simp [processChunksGo, h]

theorem go_cons_assistant (onError : String → Bool) (acc : String) (cnt : Nat)
    (c : Chunk) (rest : List Chunk)
    (h : detectEventType c = some "assistant_message") :
    processChunksGo onError acc cnt (c :: rest) =
      processChunksGo onError (acc ++ extractChunkContentDetailed c) (cnt + 1) rest := by
  simp [processChunksGo, h]

theorem go_cons_other (onError : String → Bool) (acc : String) (cnt : Nat)
    (c : Chunk) (rest : List Chunk)
    (h1 : detectEventType c ≠ some "error")
    (h2 : detectEventType c ≠ some "stop_reason")
    (h3 : detectEventType c ≠ some "assistant_message")
    (h4 : detectEventType c ≠ some "reasoning_message") :
    processChunksGo onError acc cnt (c :: rest) =
      processChunksGo onError (acc ++ extractContent c) (cnt + 1) rest := by
  simp [processChunksGo, h1, h2, h3, h4]

theorem processChunksGo_filter_reasoning (onError : String → Bool) :
    ∀ (chunks : List Chunk) (acc : String) (cnt cnt' : Nat),
      (processChunksGo onError acc cnt chunks).content =
        (processChunksGo onError acc cnt'
          (chunks.filter
            (fun c => !(detectEventType c == some "reasoning_message")))).content := by
  intro chunks
  induction chunks with
  | nil => intro acc cnt cnt'; rfl
  | cons c rest ih =>
    intro acc cnt cnt'
    by_cases hr : detectEventType c = some "reasoning_message"
    · have hf : (c :: rest).filter
          (fun c => !(detectEventType c == some "reasoning_message")) =
          rest.filter (fun c => !(detectEventType c == some "reasoning_message")) := by
        simp [List.filter_cons, hr]
      rw [hf, go_cons_reasoning onError acc cnt c rest hr]
      exact ih acc (cnt + 1) cnt'
    · have hf : (c :: rest).filter
          (fun c => !(detectEventType c == some "reasoning_message")) =
          c :: rest.filter (fun c => !(detectEventType c == some "reasoning_message")) := by
        simp [List.filter_cons, hr]
      rw [hf]
      by_cases he : detectEventType c = some "error"
      · rw [go_cons_error onError acc cnt c rest he,
          go_cons_error onError acc cnt' c _ he]
        by_cases ho : onError (c.errorAttr.getD "Unknown error")
        · simp [ho]
        · simp only [ho, if_neg]
          simpa using ih acc (cnt + 1) (cnt' + 1)
      · by_cases hs : detectEventType c = some "stop_reason"
        · rw [go_cons_stop onError acc cnt c rest hs,
            go_cons_stop onError acc cnt' c _ hs]
          by_cases hse : c.stopReason = some "error"
          · by_cases ho : onError (c.errorAttr.getD "Unknown error")
            · simp [hse, ho]
            · simp only [hse, ho, if_pos, if_neg]
              simpa using ih acc (cnt + 1) (cnt' + 1)
          · simp [hse]
        · by_cases ha : detectEventType c = some "assistant_message"
          · rw [go_cons_assistant onError acc cnt c rest ha,
              go_cons_assistant onError acc cnt' c _ ha]
            exact ih _ (cnt + 1) (cnt' + 1)
          · rw [go_cons_other onError acc cnt c rest he hs ha hr,
              go_cons_other onError acc cnt' c _ he hs ha hr]
            exact ih _ (cnt + 1) (cnt' + 1)

/-- The spec's stream-filtering scenario. -/
def reasoningChunkX : Chunk :=
  { messageType := some "reasoning_message", reasoning := some "x" }

def helloChunk : Chunk :=
  { messageType := some "assistant_message"
  , content := some (some (PyContent.str "Hello")) }

def worldChunk : Chunk :=
  { messageType := some "assistant_message"
  , content := some (some (PyContent.str " world")) }

def stopChunkNormal : Chunk :=
  { messageType := some "stop_reason", stopReason := some "end_turn" }

/-- C3: for every upstream event sequence, the events classified as
reasoning deltas contribute nothing to the accumulated visible output — the
accumulated content equals that of the same sequence with all
reasoning-classified events removed; and on the scenario sequence
`[ReasoningDelta "x", ContentDelta "Hello", ContentDelta " world",
TerminalStop]` the accumulated content is exactly `"Hello world"`. -/
theorem reasoning_never_contributes (onError : String → Bool)
    (chunks : List Chunk) :
    (processChunks onError chunks).content =
      (processChunks onError
        (chunks.filter
          (fun c => !(detectEventType c == some "reasoning_message")))).content ∧
    (processChunks (fun _ => false)
        [reasoningChunkX, helloChunk, worldChunk, stopChunkNormal]).content =
      "Hello world" := by
  exact ⟨processChunksGo_filter_reasoning onError chunks "" 0 0, rfl⟩

/-! ## Token counter (`src/librarian/token_counter.py`)

The tiktoken encoding selected for the model is abstracted as a function
`enc` giving the token count of a text (`len(encoding.encode(text))`). -/

structure OpenAIMessage where
  role : String
  content : String
  name : Option String := none
  toolCalls : List (String × String) := []
deriving DecidableEq, Repr

/-- `TokenCounter.count_tokens`. -/
def countTokens (enc : String → Nat) (text : String) : Nat := enc text

/-- `TokenCounter.count_messages_tokens`: 4 tokens of framing plus role,
content, optional name and tool-call name/argument tokens per message, plus
2 tokens for the assistant's reply. -/
def countMessagesTokens (enc : String → Nat) (messages : List OpenAIMessage) : Nat :=
  (messages.foldl (fun total msg =>
    total + 4 + enc msg.role + enc msg.content +
      (match msg.name with | some n => enc n | none => 0) +
      (msg.toolCalls.foldl (fun t tc => t + enc tc.1 + enc tc.2) 0)) 0) + 2

structure Usage where
  promptTokens : Nat
  completionTokens : Nat
  totalTokens : Nat
deriving DecidableEq, Repr

/-- `TokenCounter.calculate_usage`. -/
def calculate_usage (enc : String → Nat) (messages : List OpenAIMessage)
    (responseContent : String) : Usage :=
  let promptTokens := countMessagesTokens enc messages
  let completionTokens := countTokens enc responseContent
  ⟨promptTokens, completionTokens, promptTokens + completionTokens⟩

/-- The keyword parameters `TokenCounter.calculate_usage` declares (besides
`self`): `messages`, `response_content`, `model`. -/
def calculateUsageParams : List String := ["messages", "response_content", "model"]

def unexpectedKwargMsg (k : String) : String :=
  "calculate_usage() got an unexpected keyword argument '" ++ k ++ "'"

/-- A Python call of `calculate_usage` passing the extra keyword arguments
`kwargs`: a keyword outside the declared parameter list raises `TypeError`
before the body runs. -/
def callCalculateUsage (enc : String → Nat) (messages : List OpenAIMessage)
    (responseContent : String) (kwargs : List String) : Except String Usage :=
  match kwargs.find? (fun k => !(calculateUsageParams.contains k)) with
  | none => Except.ok (calculate_usage enc messages responseContent)
  | some k => Except.error (unexpectedKwargMsg k)

/-! ## Request orchestration (`main.py`)

`is_context_window_full_error` in `main.py` uses its own, smaller indicator
vocabulary than the error handler's. -/

def mainContextFullIndicators : List String :=
  [ "context window full"
  , "context window exceeded"
  , "context length exceeded"
  , "context overflow"
  , "token limit exceeded"
  , "context_window"
  , "context is full" ]

/-- `main.is_context_window_full_error` applied to `str(error)`. -/
def mainIsContextWindowFullError (errStr : String) : Bool :=
  mainContextFullIndicators.any (fun ind => strHasSub (strLower errStr) ind)

/-- An exception raised by the upstream client, identified by its class and
its `str(...)` rendering. -/
inductive ThrownErr where
  | apiError (msg : String)
  | exc (msg : String)
deriving DecidableEq, Repr

def ThrownErr.msg : ThrownErr → String
  | ThrownErr.apiError m => m
  | ThrownErr.exc m => m

/-- What one `create_stream` attempt delivers: an exception at stream
creation, or the classified chunks yielded in order, optionally followed by
an exception raised while iterating. -/
structure AttemptSpec where
  creationThrown : Option ThrownErr := none
  chunks : List Chunk := []
  thrown : Option ThrownErr := none
deriving DecidableEq, Repr

/-- Effects of one request run: upstream `create_stream` invocations and
compaction (`summarize_agent_conversation`) calls. -/
structure RunStats where
  upstreamCalls : Nat := 0
  summarizeCalls : Nat := 0
deriving DecidableEq, Repr

def RunStats.bumpUpstream (st : RunStats) : RunStats :=
  { st with upstreamCalls := st.upstreamCalls + 1 }

def RunStats.bumpSummarize (st : RunStats) : RunStats :=
  { st with summarizeCalls := st.summarizeCalls + 1 }

/-! ### Buffered delivery: `handle_non_streaming_response`

The compaction RPC's outcomes are an oracle `summarizeOk` indexed by the
call number.  Configuration leasing around the loop is modelled in the lease
section above and does not feed back into the retry machinery. -/

inductive NsInner where
  | finished (acc : String)
  | retryAfterSummarize (acc : String)
  | raisedHttp (message : String)
  | raised (e : ThrownErr)
deriving DecidableEq, Repr

/-- The `async for chunk in stream` loop of `handle_non_streaming_response`:
an `error` event either triggers compaction (retryable context-window case)
or raises a formatted `HTTPException`; any `stop_reason` event breaks; every
other chunk contributes `_extract_content` to the accumulated content. -/
def nsChunkLoop (summarizeOk : Nat → Bool) (retryOn : Bool)
    (attempt maxR : Nat) (acc : String) (st : RunStats) :
    List Chunk → Option ThrownErr → NsInner × RunStats
  | [], none => (NsInner.finished acc, st)
  | [], some e => (NsInner.raised e, st)
  | c :: rest, th =>
    match c.messageType with
    | some mt =>
      if mt = "error" then
        let msg := c.errorAttr.getD "Unknown error"
        if mainIsContextWindowFullError msg ∧ retryOn ∧ attempt < maxR - 1 then
          let st' := st.bumpSummarize
          if summarizeOk st.summarizeCalls then (NsInner.retryAfterSummarize acc, st')
          else (NsInner.raisedHttp ("Letta agent error: " ++ msg), st')
        else (NsInner.raisedHttp ("Letta agent error: " ++ msg), st)
      else if mt = "stop_reason" then (NsInner.finished acc, st)
      else nsChunkLoop summarizeOk retryOn attempt maxR
        (acc ++ extractContent c) st rest th
    | none => nsChunkLoop summarizeOk retryOn attempt maxR
        (acc ++ extractContent c) st rest th

inductive AttemptOutcome where
  | returnSuccess (content : String) (usage : Usage)
  | raiseHttp (message : String)
  | retryLoop
deriving DecidableEq, Repr

/-- The `except ApiError` / `except Exception` handlers of the attempt loop:
a retryable context-window error triggers compaction then retries (or
surfaces the error when compaction fails); anything else surfaces a
formatted 500. -/
def nsThrownHandler (summarizeOk : Nat → Bool) (retryOn : Bool)
    (attempt maxR : Nat) (e : ThrownErr) (st : RunStats) :
    AttemptOutcome × RunStats :=
  let fullMsg := match e with
    | ThrownErr.apiError m => "Letta API error: " ++ m
    | ThrownErr.exc m => "Failed to generate response: " ++ m
  if mainIsContextWindowFullError e.msg ∧ retryOn ∧ attempt < maxR - 1 then
    let st' := st.bumpSummarize
    if summarizeOk st.summarizeCalls then (AttemptOutcome.retryLoop, st')
    else (AttemptOutcome.raiseHttp fullMsg, st')
  else (AttemptOutcome.raiseHttp fullMsg, st)

/-- The `if response_content or attempt == max_retries - 1` block: attempt
to build the successful response; the usage call with the `system_content`
keyword raises, and the raise falls to the generic exception handler of the
attempt loop. -/
def nsSuccessCheck (enc : String → Nat) (summarizeOk : Nat → Bool)
    (retryOn : Bool) (msgs : List OpenAIMessage) (attempt maxR : Nat)
    (acc : String) (st : RunStats) : AttemptOutcome × RunStats :=
  if acc ≠ "" ∨ attempt = maxR - 1 then
    match callCalculateUsage enc msgs acc ["system_content"] with
    | Except.ok u => (AttemptOutcome.returnSuccess acc u, st)
    | Except.error m =>
        nsThrownHandler summarizeOk retryOn attempt maxR (ThrownErr.exc m) st
  else (AttemptOutcome.retryLoop, st)

/-- One iteration of the attempt loop of `handle_non_streaming_response`:
run the chunk loop; when it finished or broke out for a retry, the
`if response_content or attempt == max_retries - 1` check either builds the
response — whose usage call passes the `system_content` keyword — or falls
through to the next attempt; exceptions hit the `ApiError` / generic
handlers with their compaction-and-retry logic. -/
def nsAttempt (enc : String → Nat) (summarizeOk : Nat → Bool) (retryOn : Bool)
    (msgs : List OpenAIMessage) (attempt maxR : Nat) (spec : AttemptSpec)
    (st : RunStats) : AttemptOutcome × RunStats :=
  let st0 := st.bumpUpstream
  match spec.creationThrown with
  | some e => nsThrownHandler summarizeOk retryOn attempt maxR e st0
  | none =>
    match nsChunkLoop summarizeOk retryOn attempt maxR "" st0 spec.chunks spec.thrown with
    | (NsInner.finished acc, st1) => nsSuccessCheck enc summarizeOk retryOn msgs attempt maxR acc st1
    | (NsInner.retryAfterSummarize acc, st1) =>
        nsSuccessCheck enc summarizeOk retryOn msgs attempt maxR acc st1
    | (NsInner.raisedHttp m, st1) => (AttemptOutcome.raiseHttp m, st1)
    | (NsInner.raised e, st1) => nsThrownHandler summarizeOk retryOn attempt maxR e st1

inductive NsResult where
  | success (content : String) (usage : Usage)
  | httpError (statusCode : Nat) (message : String) (errType : String)
deriving DecidableEq, Repr

/-- The attempt loop, with fuel `maxR - attempt`; falling off the loop
raises the exhaustion error. -/
def nsRunAux (enc : String → Nat) (summarizeOk : Nat → Bool) (retryOn : Bool)
    (msgs : List OpenAIMessage) (maxR : Nat) (upstream : Nat → AttemptSpec) :
    Nat → Nat → RunStats → NsResult × RunStats
  | _, 0, st =>
    (NsResult.httpError 500 "Failed to generate response after retries" "server_error", st)
  | attempt, fuel + 1, st =>
    match nsAttempt enc summarizeOk retryOn msgs attempt maxR (upstream attempt) st with
    | (AttemptOutcome.returnSuccess c u, st1) => (NsResult.success c u, st1)
    | (AttemptOutcome.raiseHttp m, st1) => (NsResult.httpError 500 m "server_error", st1)
    | (AttemptOutcome.retryLoop, st1) =>
        nsRunAux enc summarizeOk retryOn msgs maxR upstream (attempt + 1) fuel st1

/-- `handle_non_streaming_response` with its hard-coded
`max_retries = 2`. -/
def handleNonStreamingResponse (enc : String → Nat) (summarizeOk : Nat → Bool)
    (retryOn : Bool) (msgs : List OpenAIMessage)
    (upstream : Nat → AttemptSpec) : NsResult × RunStats :=
  nsRunAux enc summarizeOk retryOn msgs 2 upstream 0 2 {}

/-! ### Incremental delivery: `_generate_stream_chunks`

Frames the generator yields are modelled structurally (content chunk, final
usage chunk, error chunk, `[DONE]`). -/

inductive Frame where
  | contentFrame (text : String)
  | finalUsageFrame (usage : Usage)
  | errorFrame (message : String)
  | doneFrame
deriving DecidableEq, Repr

inductive GsInner where
  | retrySet (frames : List Frame)
  | terminal (frames : List Frame)
  | stopped (frames : List Frame) (acc : String)
  | exhausted (frames : List Frame) (acc : String) (last : Option Chunk)
  | raisedMid (frames : List Frame) (e : ThrownErr)
deriving DecidableEq, Repr

/-- The `async for chunk in stream` loop of `_generate_stream_chunks`.
An `error` event (or a `stop_reason` event carrying `stop_reason ==
'error'`) either triggers compaction and sets `should_retry` (breaking the
loop) or yields a formatted error chunk plus `[DONE]` and returns; a normal
`stop_reason` breaks; an `assistant_message` is flushed as a content frame
and accumulated; a `reasoning_message` is skipped; any other event does
nothing inside the loop (the dangling `else` at `main.py:669` belongs to the
`for`, not to the `if` chain).  `last` tracks the loop variable for that
`for`-`else` block. -/
def gsChunkLoop (summarizeOk : Nat → Bool) (retryOn : Bool)
    (attempt maxR : Nat) (acc : String) (frames : List Frame)
    (last : Option Chunk) (st : RunStats) :
    List Chunk → Option ThrownErr → GsInner × RunStats
  | [], none => (GsInner.exhausted frames acc last, st)
  | [], some e => (GsInner.raisedMid frames e, st)
  | c :: rest, th =>
    let et := detectEventType c
    if et = some "error" then
      let msg := c.errorAttr.getD "Unknown error"
      if mainIsContextWindowFullError msg ∧ retryOn ∧ attempt < maxR - 1 then
        let st' := st.bumpSummarize
        if summarizeOk st.summarizeCalls then (GsInner.retrySet frames, st')
        else
          (GsInner.terminal (frames ++
            [Frame.errorFrame ("Letta agent error: " ++ msg), Frame.doneFrame]), st')
      else
        (GsInner.terminal (frames ++
          [Frame.errorFrame ("Letta agent error: " ++ msg), Frame.doneFrame]), st)
    else if et = some "stop_reason" then
      if c.stopReason = some "error" then
        let msg := c.errorAttr.getD "Unknown error"
        if mainIsContextWindowFullError msg ∧ retryOn ∧ attempt < maxR - 1 then
          let st' := st.bumpSummarize
          if summarizeOk st.summarizeCalls then (GsInner.retrySet frames, st')
          else
            (GsInner.terminal (frames ++
              [Frame.errorFrame ("Letta agent error: " ++ msg), Frame.doneFrame]), st')
        else
          (GsInner.terminal (frames ++
            [Frame.errorFrame ("Letta agent error: " ++ msg), Frame.doneFrame]), st)
      else (GsInner.stopped frames acc, st)
    else if et = some "assistant_message" then
      let t := extractChunkContentDetailed c
      if t = "" then
        gsChunkLoop summarizeOk retryOn attempt maxR acc frames (some c) st rest th
      else
        gsChunkLoop summarizeOk retryOn attempt maxR (acc ++ t)
          (frames ++ [Frame.contentFrame t]) (some c) st rest th
    else if et = some "reasoning_message" then
      gsChunkLoop summarizeOk retryOn attempt maxR acc frames (some c) st rest th
    else
      gsChunkLoop summarizeOk retryOn attempt maxR acc frames (some c) st rest th

/-- The `for`-`else` block (`main.py:669-688`): it runs only when the loop
was not broken, extracts content from the *last* chunk once more (flushing
it again), and raises `NameError` when the stream yielded no chunk at all
(the loop variable is unbound). -/
def gsForElse (frames : List Frame) (acc : String) (last : Option Chunk) :
    Except ThrownErr (List Frame × String) :=
  match last with
  | none => Except.error (ThrownErr.exc "name 'chunk' is not defined")
  | some c =>
    let t := extractContent c
    if t = "" then Except.ok (frames, acc)
    else Except.ok (frames ++ [Frame.contentFrame t], acc ++ t)

inductive GsOutcome where
  | outFrames (frames : List Frame)
  | retryContinue (frames : List Frame)
  | breakRetriesFailed (frames : List Frame)
deriving DecidableEq, Repr

/-- The `except Exception as stream_error` handler of the inner `try`
(`main.py:719`), which also receives the usage call's `TypeError` and the
`for`-`else` `NameError`: a retryable context-window error triggers
compaction and `continue` (or surfaces the error when compaction fails);
anything else yields `Stream iteration error: ...` plus `[DONE]` and
returns. -/
def gsMidErrHandler (summarizeOk : Nat → Bool) (retryOn : Bool)
    (attempt maxR : Nat) (frames : List Frame) (e : ThrownErr)
    (st : RunStats) : GsOutcome × RunStats :=
  let fullMsg := "Stream iteration error: " ++ e.msg
  if mainIsContextWindowFullError e.msg ∧ retryOn ∧ attempt < maxR - 1 then
    let st' := st.bumpSummarize
    if summarizeOk st.summarizeCalls then (GsOutcome.retryContinue frames, st')
    else
      (GsOutcome.outFrames (frames ++
        [Frame.errorFrame fullMsg, Frame.doneFrame]), st')
  else
    (GsOutcome.outFrames (frames ++
      [Frame.errorFrame fullMsg, Frame.doneFrame]), st)

/-- The handlers for exceptions from `create_stream` itself
(`except ApiError` at `main.py:755`, `except Exception` at `main.py:789`). -/
def gsCreationErrHandler (summarizeOk : Nat → Bool) (retryOn : Bool)
    (attempt maxR : Nat) (frames : List Frame) (e : ThrownErr)
    (st : RunStats) : GsOutcome × RunStats :=
  let fullMsg := match e with
    | ThrownErr.apiError m => "Letta API error: " ++ m
    | ThrownErr.exc m => "Streaming error: " ++ m
  if mainIsContextWindowFullError e.msg ∧ retryOn ∧ attempt < maxR - 1 then
    let st' := st.bumpSummarize
    if summarizeOk st.summarizeCalls then (GsOutcome.retryContinue frames, st')
    else
      (GsOutcome.outFrames (frames ++
        [Frame.errorFrame fullMsg, Frame.doneFrame]), st')
  else
    (GsOutcome.outFrames (frames ++
      [Frame.errorFrame fullMsg, Frame.doneFrame]), st)

/-- The success block after the loop (`main.py:694-717`): build the final
usage chunk — the usage call passes the `system_content` keyword — then
`[DONE]`; the raise lands in the `stream_error` handler. -/
def gsSuccessBlock (enc : String → Nat) (summarizeOk : Nat → Bool)
    (retryOn : Bool) (msgs : List OpenAIMessage) (attempt maxR : Nat)
    (frames : List Frame) (acc : String) (st : RunStats) :
    GsOutcome × RunStats :=
  match callCalculateUsage enc msgs acc ["system_content"] with
  | Except.ok u =>
      (GsOutcome.outFrames (frames ++ [Frame.finalUsageFrame u, Frame.doneFrame]), st)
  | Except.error m =>
      gsMidErrHandler summarizeOk retryOn attempt maxR frames (ThrownErr.exc m) st

/-- One iteration of the attempt loop of `_generate_stream_chunks`.  When
the chunk loop set `should_retry`, the `if should_retry: break` at
`main.py:691-692` sits after the inner `async for`, so the `break` leaves
the *attempt* loop — the outcome is `breakRetriesFailed`, not a retry. -/
def gsAttempt (enc : String → Nat) (summarizeOk : Nat → Bool) (retryOn : Bool)
    (msgs : List OpenAIMessage) (attempt maxR : Nat) (spec : AttemptSpec)
    (frames : List Frame) (st : RunStats) : GsOutcome × RunStats :=
  let st0 := st.bumpUpstream
  match spec.creationThrown with
  | some e => gsCreationErrHandler summarizeOk retryOn attempt maxR frames e st0
  | none =>
    match gsChunkLoop summarizeOk retryOn attempt maxR "" frames none st0
        spec.chunks spec.thrown with
    | (GsInner.retrySet f, st1) => (GsOutcome.breakRetriesFailed f, st1)
    | (GsInner.terminal f, st1) => (GsOutcome.outFrames f, st1)
    | (GsInner.stopped f acc, st1) =>
        gsSuccessBlock enc summarizeOk retryOn msgs attempt maxR f acc st1
    | (GsInner.exhausted f acc last, st1) =>
        (match gsForElse f acc last with
         | Except.ok (f', acc') =>
             gsSuccessBlock enc summarizeOk retryOn msgs attempt maxR f' acc' st1
         | Except.error e => gsMidErrHandler summarizeOk retryOn attempt maxR f e st1)
    | (GsInner.raisedMid f e, st1) =>
        gsMidErrHandler summarizeOk retryOn attempt maxR f e st1

/-- The attempt loop of `_generate_stream_chunks` with fuel
`maxR - attempt`; leaving the loop — by exhaustion or by the
`should_retry` break — yields the `Failed to generate stream after
retries` error chunk plus `[DONE]`. -/
def gsRunAux (enc : String → Nat) (summarizeOk : Nat → Bool) (retryOn : Bool)
    (msgs : List OpenAIMessage) (maxR : Nat) (upstream : Nat → AttemptSpec) :
    Nat → Nat → List Frame → RunStats → List Frame × RunStats
  | _, 0, frames, st =>
    (frames ++ [Frame.errorFrame "Failed to generate stream after retries",
      Frame.doneFrame], st)
  | attempt, fuel + 1, frames, st =>
    match gsAttempt enc summarizeOk retryOn msgs attempt maxR (upstream attempt)
        frames st with
    | (GsOutcome.outFrames f, st1) => (f, st1)
    | (GsOutcome.breakRetriesFailed f, st1) =>
        (f ++ [Frame.errorFrame "Failed to generate stream after retries",
          Frame.doneFrame], st1)
    | (GsOutcome.retryContinue f, st1) =>
        gsRunAux enc summarizeOk retryOn msgs maxR upstream (attempt + 1) fuel f st1

/-- `_generate_stream_chunks` with its hard-coded `max_retries = 2`. -/
def generateStreamChunks (enc : String → Nat) (summarizeOk : Nat → Bool)
    (retryOn : Bool) (msgs : List OpenAIMessage)
    (upstream : Nat → AttemptSpec) : List Frame × RunStats :=
  gsRunAux enc summarizeOk retryOn msgs 2 upstream 0 2 [] {}

/-! ### Scenario fixtures for the orchestration claims -/

/-- An in-stream `error` event whose message matches the context-window
vocabulary. -/
def cwfErrorChunk : Chunk :=
  { messageType := some "error", errorAttr := some "context window full" }

/-- An assistant delta carrying some partial content. -/
def partialChunk : Chunk :=
  { messageType := some "assistant_message"
  , content := some (some (PyContent.str "partial")) }

/-- A healthy assistant answer. -/
def answerChunk : Chunk :=
  { messageType := some "assistant_message"
  , content := some (some (PyContent.str "4")) }

/-- The caller's message list of the end-to-end scenario. -/
def demoMsgs : List OpenAIMessage := [{ role := "user", content := "2+2?" }]

/-- C1: with `maxAttempts = 2` and a `ContextWindowFull` error event on
every attempt, the buffered path does exactly what the claim says — one
compaction call, one retried upstream call (two in total), then a formatted
error with no further compaction — but the incrementally-flushed path does
not: after the single compaction call the `break` at `main.py:692` exits
the attempt loop instead of continuing it, so no retried upstream call is
made (`upstreamCalls = 1`) and the stream ends with the
`Failed to generate stream after retries` error frame. -/
theorem retry_bound_evaluation :
    handleNonStreamingResponse String.length (fun _ => true) true demoMsgs
        (fun _ => { chunks := [cwfErrorChunk] }) =
      (NsResult.httpError 500 "Letta agent error: context window full"
          "server_error",
        { upstreamCalls := 2, summarizeCalls := 1 }) ∧
    generateStreamChunks String.length (fun _ => true) true demoMsgs
        (fun _ => { chunks := [cwfErrorChunk] }) =
      ([Frame.errorFrame "Failed to generate stream after retries",
          Frame.doneFrame],
        { upstreamCalls := 1, summarizeCalls := 1 }) :=
  ⟨rfl, rfl⟩

/-- C8: the usage record computed by `calculate_usage` always satisfies
`total_tokens = prompt_tokens + completion_tokens`; but the end-to-end
scenario — a healthy session answering `"4"` and stopping normally — does
not produce a successful response carrying it, because the handlers pass
the keyword `system_content` that `calculate_usage` does not declare, so
the call raises `TypeError` and the request terminates with a formatted
500. -/
theorem usage_total_equation (enc : String → Nat)
    (msgs : List OpenAIMessage) (resp : String) :
    (calculate_usage enc msgs resp).totalTokens =
      (calculate_usage enc msgs resp).promptTokens +
        (calculate_usage enc msgs resp).completionTokens ∧
    handleNonStreamingResponse String.length (fun _ => true) true demoMsgs
        (fun _ => { chunks := [answerChunk, stopChunkNormal] }) =
      (NsResult.httpError 500
          ("Failed to generate response: " ++ unexpectedKwargMsg "system_content")
          "server_error",
        { upstreamCalls := 1, summarizeCalls := 0 }) :=
  ⟨rfl, rfl⟩

/-- C10: in the buffered path, when content has been accumulated and a
retryable context-window error event arrives and compaction succeeds, the
handler does *not* retry (a single upstream call), exactly as the claim
says — but instead of returning a successful response with the partial
content, the success return raises (`calculate_usage` has no
`system_content` parameter) and the request terminates with a formatted
500.  When no content was accumulated, the retry does happen (two upstream
calls). -/
theorem partial_content_no_retry_evaluation :
    handleNonStreamingResponse String.length (fun _ => true) true demoMsgs
        (fun _ => { chunks := [partialChunk, cwfErrorChunk] }) =
      (NsResult.httpError 500
          ("Failed to generate response: " ++ unexpectedKwargMsg "system_content")
          "server_error",
        { upstreamCalls := 1, summarizeCalls := 1 }) ∧
    handleNonStreamingResponse String.length (fun _ => true) true demoMsgs
        (fun attempt =>
          if attempt = 0 then { chunks := [cwfErrorChunk] }
          else { chunks := [answerChunk, stopChunkNormal] }) =
      (NsResult.httpError 500
          ("Failed to generate response: " ++ unexpectedKwargMsg "system_content")
          "server_error",
        { upstreamCalls := 2, summarizeCalls := 1 }) :=
  ⟨rfl, rfl⟩

end Librarian
